import Mathlib

/-!
Verification of the `typeless` crate (src/src/lib.rs): a fixed-capacity,
stack-resident, 8-byte-aligned container `TypeErased<const C: usize>` that
stores the raw bytes of a value of any type `T` with `size_of::<T>() <= C`
and `align_of::<T>() <= 8`, discarding all type information.

Shallow embedding choices:
- a buffer byte is `Option (Fin 256)`: `none` models `MaybeUninit::uninit()`
  (an uninitialized byte), `some b` an initialized byte of value `b`;
- `TypeErased C` is the subtype of byte lists of length exactly `C`,
  modelling the field `buf : [MaybeUninit<u8>; C]`;
- a Rust type parameter `T` is modelled by `TypeAbi α`: its `size_of`,
  `align_of`, and the byte representation of its values (`encode`, what
  `ptr::write` stores; `decode`, what `ptr::read` / dereferencing recovers).
  The laws `encode_length` and `decode_encode` are the facts the Rust ABI
  guarantees for every concrete type: a value occupies exactly `size_of`
  bytes and reading back the bytes just written yields the value;
- `panic!` from a failed `assert!` is modelled by `Except String`: `.error`
  carries the panic message, `.ok` the constructed container;
- addresses are naturals; `#[repr(C, align(8))]` is the hypothesis that the
  address of a placed container is a multiple of 8, and `buf` being the
  first field of a `repr(C)` struct puts it at offset 0.
-/

/-- A possibly-uninitialized byte: the embedding of `MaybeUninit<u8>`.
`none` is `MaybeUninit::uninit()`. -/
def MUByte : Type := Option (Fin 256)

instance : DecidableEq MUByte := by unfold MUByte; infer_instance

/-- The ABI data of a Rust type `T` whose values are modelled by `α`:
`size` is `size_of::<T>()`, `align` is `align_of::<T>()`, `encode v` the
bytes `ptr::write` stores for `v`, `decode` the recovery of a value from
its bytes as performed by `ptr::read` or dereferencing a `*const T`.
The two laws are Rust layout guarantees, valid for every concrete type. -/
structure TypeAbi (α : Type) where
  size : Nat
  align : Nat
  encode : α → List MUByte
  decode : List MUByte → Option α
  encode_length : ∀ v, (encode v).length = size
  decode_encode : ∀ v, decode (encode v) = some v

/-- The container `TypeErased<const C: usize>`: its single data field
`buf : [MaybeUninit<u8>; C]` is a list of exactly `C` possibly-uninitialized
bytes.  (The other field, `__no_send_sync : PhantomData<*const ()>`, is a
zero-sized marker with no runtime content; its auto-trait effect is embedded
separately below.) -/
def TypeErased (C : Nat) : Type := { l : List MUByte // l.length = C }

namespace TypeErased

/-- `TypeErased::empty`: a container all of whose `C` bytes are
uninitialized (`buf: [MaybeUninit::uninit(); C]`). -/
def empty (C : Nat) : TypeErased C :=
  ⟨List.replicate C none, List.length_replicate C none⟩

/-- The effect of `ptr::write` of `src` at offset 0 of buffer `dst`:
the first `src.length` bytes are replaced, the rest kept. -/
def writeBytes (dst src : List MUByte) : List MUByte :=
  src ++ dst.drop src.length

/-- `TypeErased::new_unchecked`: obtains an empty container and performs a
raw, non-dropping write of the bytes of `value` at the typed pointer into
its buffer (offset 0).  The safety precondition `size_of::<T>() <= C` is the
hypothesis `h` (without it the write would be out of bounds). -/
def new_unchecked (C : Nat) {α : Type} (A : TypeAbi α) (value : α)
    (h : A.size ≤ C) : TypeErased C :=
  ⟨writeBytes (empty C).val (A.encode value), by
    simp [writeBytes, empty, A.encode_length]
    omega⟩

/-- The panic message of the size assertion in `TypeErased::new`. -/
def size_panic_msg (sz cap : Nat) : String :=
  "typeless: size of T (" ++ toString sz ++ ") > capacity (" ++
    toString cap ++ ")"

/-- The panic message of the alignment assertion in `TypeErased::new`. -/
def align_panic_msg (al : Nat) : String :=
  "typeless: alignment of T (" ++ toString al ++ ") > max align (8)"

/-- `TypeErased::new`: asserts `size_of::<T>() <= C`, then
`align_of::<T>() <= 8`, panicking with the corresponding message if an
assertion fails; on success delegates to `new_unchecked`. -/
def new (C : Nat) {α : Type} (A : TypeAbi α) (value : α) :
    Except String (TypeErased C) :=
  if h : A.size ≤ C then
    if A.align ≤ 8 then
      .ok (new_unchecked C A value h)
    else
      .error (align_panic_msg A.align)
  else
    .error (size_panic_msg A.size C)

/-- Offset of the field `buf` inside the `repr(C)` struct: it is the first
field, so offset 0. -/
def buf_offset : Nat := 0

/-- `TypeErased::as_ptr::<T>`: `self.buf.as_ptr().cast()` — the address of
the buffer, unchanged by the cast, for a container placed at `selfAddr`.
The type parameter (here the ABI `A`) does not influence the address. -/
def as_ptr {α : Type} (_A : TypeAbi α) (selfAddr : Nat) : Nat :=
  selfAddr + buf_offset

/-- `TypeErased::as_mut_ptr::<T>`: `self.buf.as_mut_ptr().cast()` — same
address computation as `as_ptr`. -/
def as_mut_ptr {α : Type} (_A : TypeAbi α) (selfAddr : Nat) : Nat :=
  selfAddr + buf_offset

/-- `TypeErased::assume_type_ref::<T>`: dereferences the typed pointer to
the start of the buffer, i.e. reads a `T` from the first `size_of::<T>()`
bytes.  `none` models the undefined behavior of reading bytes that are not
a valid `T`. -/
def assume_type_ref {α : Type} (A : TypeAbi α) {C : Nat}
    (te : TypeErased C) : Option α :=
  A.decode (te.val.take A.size)

/-- `TypeErased::assume_type_take::<T>`: `ptr::read(self.as_ptr())` — a raw
non-dropping read of a `T` from the first `size_of::<T>()` bytes, consuming
the container. -/
def assume_type_take {α : Type} (A : TypeAbi α) {C : Nat}
    (te : TypeErased C) : Option α :=
  A.decode (te.val.take A.size)

/-- `TypeErased::raw`: the read-only view `&self.buf` of the full buffer. -/
def raw {C : Nat} (te : TypeErased C) : List MUByte :=
  te.val

/-- The effect of writing byte `b` at index `i` through the mutable view
`&mut self.buf` returned by `TypeErased::raw_mut`: since `raw_mut` returns
a reference to the buffer itself (not a copy), the write lands in the
container's own storage. -/
def raw_mut_set {C : Nat} (te : TypeErased C) (i : Nat) (b : MUByte) :
    TypeErased C :=
  ⟨te.val.set i b, by simp [te.property]⟩

end TypeErased

/-- The ABI of Rust's `u8`: size 1, align 1, one initialized byte. -/
def u8Abi : TypeAbi (Fin 256) where
  size := 1
  align := 1
  encode v := [some v]
  decode l := match l with
    | [some b] => some b
    | _ => none
  encode_length := fun _ => rfl
  decode_encode := fun _ => rfl

/-- The ABI of Rust's unit type `()`: size 0, align 1, no bytes; reading
zero bytes always yields `()`. -/
def unitAbi : TypeAbi Unit where
  size := 0
  align := 1
  encode _ := []
  decode _ := some ()
  encode_length := fun _ => rfl
  decode_encode := fun _ => rfl

/-- Grammar of the Rust types occurring in the fields of
`TypeErased<C>`. -/
inductive RustTy : Type where
  | u8 : RustTy
  | unit : RustTy
  | maybeUninit : RustTy → RustTy
  | array : RustTy → Nat → RustTy
  | rawConstPtr : RustTy → RustTy
  | phantomData : RustTy → RustTy

/-- Rust auto-trait inference for `Send` on field types: `u8` and `()` are
`Send`; `MaybeUninit<T>`, `[T; N]` and `PhantomData<T>` are `Send` iff `T`
is; a raw pointer `*const T` is never `Send`. -/
def rustSend : RustTy → Bool
  | .u8 => true
  | .unit => true
  | .maybeUninit t => rustSend t
  | .array t _ => rustSend t
  | .rawConstPtr _ => false
  | .phantomData t => rustSend t

/-- Rust auto-trait inference for `Sync` on field types: same rules, a raw
pointer `*const T` is never `Sync`. -/
def rustSync : RustTy → Bool
  | .u8 => true
  | .unit => true
  | .maybeUninit t => rustSync t
  | .array t _ => rustSync t
  | .rawConstPtr _ => false
  | .phantomData t => rustSync t

/-- The field types of the struct `TypeErased<C>`:
`buf : [MaybeUninit<u8>; C]` and `__no_send_sync : PhantomData<*const ()>`. -/
def typeErasedFields (C : Nat) : List RustTy :=
  [.array (.maybeUninit .u8) C, .phantomData (.rawConstPtr .unit)]

/-- Auto-trait rule for a struct with no explicit `unsafe impl`: it is
`Send` iff all its fields are. -/
def structSend (fields : List RustTy) : Bool :=
  fields.all rustSend

/-- Auto-trait rule for a struct with no explicit `unsafe impl`: it is
`Sync` iff all its fields are. -/
def structSync (fields : List RustTy) : Bool :=
  fields.all rustSync

/-- Claim C1: for every type `T` with `size_of(T) <= C` and
`align_of(T) <= 8`, checked construction of a container from a value `v`
of `T` succeeds, and borrowing the container as `T` via `assume_type_ref`
yields a value equal to `v`. -/
theorem new_then_ref_roundtrip {α : Type} (C : Nat) (A : TypeAbi α) (v : α)
    (h1 : A.size ≤ C) (h2 : A.align ≤ 8) :
    TypeErased.new C A v = .ok (TypeErased.new_unchecked C A v h1) ∧
    TypeErased.assume_type_ref A (TypeErased.new_unchecked C A v h1) =
      some v := by
  constructor
  · simp [TypeErased.new, h1, h2]
  · simp only [TypeErased.assume_type_ref, TypeErased.new_unchecked,
      TypeErased.writeBytes]
    rw [← A.encode_length v, List.take_left, A.decode_encode]

/-- Witness for C1 at `C = 4`, `T = u8`, `v = 37`. -/
theorem new_then_ref_roundtrip_w :
    TypeErased.new 4 u8Abi 37 =
      .ok (TypeErased.new_unchecked 4 u8Abi 37 (by decide)) ∧
    TypeErased.assume_type_ref u8Abi
      (TypeErased.new_unchecked 4 u8Abi 37 (by decide)) = some 37 :=
  new_then_ref_roundtrip 4 u8Abi 37 (by decide) (by decide)

/-- Claim C2: for every type `T` with `size_of(T) <= C` and
`align_of(T) <= 8`, checked construction from a value `v` of `T` succeeds,
and taking ownership via `assume_type_take` yields an owned value equal
to `v`. -/
theorem new_then_take_roundtrip {α : Type} (C : Nat) (A : TypeAbi α) (v : α)
    (h1 : A.size ≤ C) (h2 : A.align ≤ 8) :
    TypeErased.new C A v = .ok (TypeErased.new_unchecked C A v h1) ∧
    TypeErased.assume_type_take A (TypeErased.new_unchecked C A v h1) =
      some v := by
  constructor
  · simp [TypeErased.new, h1, h2]
  · simp only [TypeErased.assume_type_take, TypeErased.new_unchecked,
      TypeErased.writeBytes]
    rw [← A.encode_length v, List.take_left, A.decode_encode]

/-- Witness for C2 at `C = 4`, `T = u8`, `v = 37`. -/
theorem new_then_take_roundtrip_w :
    TypeErased.new 4 u8Abi 37 =
      .ok (TypeErased.new_unchecked 4 u8Abi 37 (by decide)) ∧
    TypeErased.assume_type_take u8Abi
      (TypeErased.new_unchecked 4 u8Abi 37 (by decide)) = some 37 :=
  new_then_take_roundtrip 4 u8Abi 37 (by decide) (by decide)

/-- Claim C3: checked construction `new` panics iff `size_of(T) > C` or
`align_of(T) > 8`; the panic message names the violated precondition and
its offending values (size checked first); no container is produced on
failure; on success it delegates to `new_unchecked`. -/
theorem new_panic_behavior {α : Type} (C : Nat) (A : TypeAbi α) (v : α) :
    ((∃ e, TypeErased.new C A v = .error e) ↔ (C < A.size ∨ 8 < A.align)) ∧
    (C < A.size →
      TypeErased.new C A v = .error (TypeErased.size_panic_msg A.size C)) ∧
    (A.size ≤ C → 8 < A.align →
      TypeErased.new C A v =
        .error (TypeErased.align_panic_msg A.align)) ∧
    (∀ h1 : A.size ≤ C, A.align ≤ 8 →
      TypeErased.new C A v = .ok (TypeErased.new_unchecked C A v h1)) := by
  refine ⟨⟨?_, ?_⟩, ?_, ?_, ?_⟩
  · rintro ⟨e, he⟩
    by_cases hs : A.size ≤ C
    · by_cases ha : A.align ≤ 8
      · simp [TypeErased.new, hs, ha] at he
      · right; omega
    · left; omega
  · intro h
    by_cases hs : A.size ≤ C
    · have ha : ¬ A.align ≤ 8 := by omega
      exact ⟨TypeErased.align_panic_msg A.align,
        by simp [TypeErased.new, hs, ha]⟩
    · exact ⟨TypeErased.size_panic_msg A.size C,
        by simp [TypeErased.new, hs]⟩
  · intro h
    have hs : ¬ A.size ≤ C := by omega
    simp [TypeErased.new, hs]
  · intro h1 h8
    have ha : ¬ A.align ≤ 8 := by omega
    simp [TypeErased.new, h1, ha]
  · intro h1 ha
    simp [TypeErased.new, h1, ha]

/-- Witness for C3: a failing construction at `C = 0`, `T = u8` with the
size message, and a succeeding one at `C = 4`. -/
theorem new_panic_behavior_w :
    TypeErased.new 0 u8Abi 37 = .error (TypeErased.size_panic_msg 1 0) ∧
    TypeErased.new 4 u8Abi 37 =
      .ok (TypeErased.new_unchecked 4 u8Abi 37 (by decide)) :=
  ⟨(new_panic_behavior 0 u8Abi 37).2.1 (by decide),
   (new_panic_behavior 4 u8Abi 37).2.2.2 (by decide) (by decide)⟩

/-- Claim C4: for every capacity and every type parameter `T` (no
precondition on `T`), the pointer accessors return the container's base
address (they are total, so never fail), and since a container is always
placed at an 8-byte-aligned address, the returned address is a multiple
of 8. -/
theorem ptr_accessors_always_aligned {α : Type} (A : TypeAbi α)
    (selfAddr : Nat) (h : selfAddr % 8 = 0) :
    TypeErased.as_ptr A selfAddr = selfAddr ∧
    TypeErased.as_mut_ptr A selfAddr = selfAddr ∧
    TypeErased.as_ptr A selfAddr % 8 = 0 ∧
    TypeErased.as_mut_ptr A selfAddr % 8 = 0 := by
  simp [TypeErased.as_ptr, TypeErased.as_mut_ptr, TypeErased.buf_offset, h]

/-- Witness for C4 at address 16 with `T = u8`. -/
theorem ptr_accessors_always_aligned_w :
    TypeErased.as_ptr u8Abi 16 = 16 ∧
    TypeErased.as_mut_ptr u8Abi 16 = 16 ∧
    TypeErased.as_ptr u8Abi 16 % 8 = 0 ∧
    TypeErased.as_mut_ptr u8Abi 16 % 8 = 0 :=
  ptr_accessors_always_aligned u8Abi 16 (by decide)

/-- Claim C5: after constructing a container from a value of `T` with
`size_of(T) <= C`, the buffer bytes at indices `size_of(T) .. C` are
exactly the uninitialized bytes of the empty state: only the first
`size_of(T)` bytes are written. -/
theorem tail_bytes_stay_uninit {α : Type} (C : Nat) (A : TypeAbi α) (v : α)
    (h : A.size ≤ C) :
    (TypeErased.new_unchecked C A v h).val.drop A.size =
      (TypeErased.empty C).val.drop A.size ∧
    (TypeErased.new_unchecked C A v h).val.drop A.size =
      List.replicate (C - A.size) (none : MUByte) := by
  have hmain : (TypeErased.new_unchecked C A v h).val.drop A.size =
      List.replicate (C - A.size) (none : MUByte) := by
    simp only [TypeErased.new_unchecked, TypeErased.writeBytes,
      TypeErased.empty]
    rw [← A.encode_length v, List.drop_left, A.encode_length v,
      List.drop_replicate]
  refine ⟨?_, hmain⟩
  rw [hmain]
  simp [TypeErased.empty, List.drop_replicate]

/-- Witness for C5 at `C = 4`, `T = u8`, `v = 37`. -/
theorem tail_bytes_stay_uninit_w :
    (TypeErased.new_unchecked 4 u8Abi 37 (by decide)).val.drop 1 =
      List.replicate 3 (none : MUByte) :=
  (tail_bytes_stay_uninit 4 u8Abi 37 (by decide)).2

/-- Claim C6: `empty` is total (never fails), produces a container whose
`C` bytes are all uninitialized (so it holds no logical value), and
checked construction from the unit value produces exactly that
container: `new C unitAbi () = ok (empty C)`. -/
theorem empty_all_uninit_eq_new_of_unit (C : Nat) :
    (TypeErased.empty C).val = List.replicate C (none : MUByte) ∧
    TypeErased.new C unitAbi () = .ok (TypeErased.empty C) := by
  refine ⟨rfl, ?_⟩
  have h1 : unitAbi.size ≤ C := Nat.zero_le C
  have h2 : unitAbi.align ≤ 8 := by norm_num [unitAbi]
  have he : TypeErased.new_unchecked C unitAbi () h1 = TypeErased.empty C := by
    apply Subtype.ext
    simp [TypeErased.new_unchecked, TypeErased.writeBytes, unitAbi,
      TypeErased.empty]
  simp [TypeErased.new, h1, h2, he]

/-- Claim C7: under Rust auto-trait inference, the struct `TypeErased<C>`
with fields `[MaybeUninit<u8>; C]` and `PhantomData<*const ()>` is neither
`Send` nor `Sync` for every capacity `C`, so any cross-thread send or
share is rejected at compile time. -/
theorem typeErased_not_send_not_sync (C : Nat) :
    structSend (typeErasedFields C) = false ∧
    structSync (typeErasedFields C) = false := by
  simp [structSend, structSync, typeErasedFields, rustSend, rustSync]

/-- Claim C8: after constructing a container from `v`, the first
`size_of(T)` bytes of the buffer returned by `raw` are exactly the byte
representation of `v` (the value sits at offset 0), and `as_ptr` returns
the buffer's base address for every type parameter, with no per-type
offset. -/
theorem value_stored_at_offset_zero {α : Type} (C : Nat) (A : TypeAbi α)
    (v : α) (h : A.size ≤ C) :
    (TypeErased.raw (TypeErased.new_unchecked C A v h)).take A.size =
      A.encode v ∧
    (∀ (β : Type) (B : TypeAbi β) (a : Nat), TypeErased.as_ptr B a = a) := by
  constructor
  · simp only [TypeErased.raw, TypeErased.new_unchecked, TypeErased.writeBytes]
    rw [← A.encode_length v, List.take_left]
  · intro β B a
    simp [TypeErased.as_ptr, TypeErased.buf_offset]

/-- Witness for C8 at `C = 4`, `T = u8`, `v = 37`. -/
theorem value_stored_at_offset_zero_w :
    (TypeErased.raw (TypeErased.new_unchecked 4 u8Abi 37 (by decide))).take
      u8Abi.size = u8Abi.encode 37 :=
  (value_stored_at_offset_zero 4 u8Abi 37 (by decide)).1

/-- Claim C9: `raw` and `raw_mut` expose the same underlying storage:
writing byte `b` at index `i < C` through the mutable view and then
reading index `i` through `raw` yields `b`, and every other index is
unchanged. -/
theorem raw_and_raw_mut_share_storage (C : Nat) (te : TypeErased C)
    (i : Nat) (b : MUByte) (h : i < C) :
    (TypeErased.raw (TypeErased.raw_mut_set te i b))[i]? = some b ∧
    ∀ j, j ≠ i →
      (TypeErased.raw (TypeErased.raw_mut_set te i b))[j]? =
        (TypeErased.raw te)[j]? := by
  constructor
  · have hl : i < te.val.length := by rw [te.property]; exact h
    simpa [TypeErased.raw, TypeErased.raw_mut_set] using
      List.getElem?_set_eq_of_lt b hl
  · intro j hj
    simp only [TypeErased.raw, TypeErased.raw_mut_set]
    exact List.getElem?_set_ne (Ne.symm hj)

/-- Witness for C9: write `some 5` at index 1 of an empty 3-byte container
and read it back. -/
theorem raw_and_raw_mut_share_storage_w :
    (TypeErased.raw (TypeErased.raw_mut_set (TypeErased.empty 3) 1
      (some (5 : Fin 256))))[1]? = some (some (5 : Fin 256)) :=
  (raw_and_raw_mut_share_storage 3 (TypeErased.empty 3) 1
    (some (5 : Fin 256)) (by decide)).1

/-- Claim C10: for every zero-sized type `T` (`size_of(T) = 0`), not just
the unit type, `new_unchecked` produces a container identical to
`empty`: all `C` bytes uninitialized, nothing written. -/
theorem zst_new_unchecked_eq_empty {α : Type} (C : Nat) (A : TypeAbi α)
    (v : α) (h : A.size ≤ C) (hz : A.size = 0) :
    TypeErased.new_unchecked C A v h = TypeErased.empty C := by
  apply Subtype.ext
  have henc : A.encode v = [] := by
    have hl := A.encode_length v
    rw [hz] at hl
    exact List.length_eq_zero.mp hl
  simp [TypeErased.new_unchecked, TypeErased.writeBytes, henc,
    TypeErased.empty]

/-- Witness for C10 with the zero-sized unit type at `C = 2`. -/
theorem zst_new_unchecked_eq_empty_w :
    TypeErased.new_unchecked 2 unitAbi () (by decide) = TypeErased.empty 2 :=
  zst_new_unchecked_eq_empty 2 unitAbi () (by decide) (by decide)
